import Mathlib

/-!
Verification of the portfolio-website front-end script
(`static/js/main.js` and its near-duplicate second version).

The script is embedded shallowly: pixel and time quantities are modelled
as rationals, DOM elements as records, event handlers as pure functions
from page state to page state together with a list of emitted browser
effects.  Every definition is translated directly from the JavaScript
source; a handful of clearly-marked `Spec`-side definitions restate a
claim's wording so that the code can be compared against it.
-/

/-- A CSS transform value written to the carousel track. -/
inductive Transform where
  | translateX (px : ℚ)
  deriving DecidableEq

/-- Mutable state of the carousel animation: the closure variables
`speed`, `offset`, `lastTime`, `halfWidth` of the carousel setup block,
plus the transform last written to `track.style.transform` (`none`
before the first frame). -/
structure CarouselState where
  speed : ℚ
  offset : ℚ
  lastTime : ℚ
  halfWidth : ℚ
  transform : Option Transform
  deriving DecidableEq

/-- `Math.abs` on the rational model of JavaScript numbers. -/
def ratAbs (q : ℚ) : ℚ := if q < 0 then -q else q

theorem ratAbs_eq_abs (q : ℚ) : ratAbs q = |q| := by
  rcases lt_or_ge q 0 with h | h
  · simp [ratAbs, h, abs_of_neg h]
  · simp [ratAbs, not_lt.mpr h, abs_of_nonneg h]

/-- The `step(now)` animation-frame callback:
`dt = (now - lastTime) / 1000`; `offset -= speed * dt`;
`if (Math.abs(offset) >= halfWidth) offset += halfWidth`;
`track.style.transform = translateX(offset px)`. -/
def step (s : CarouselState) (now : ℚ) : CarouselState :=
  let dt := (now - s.lastTime) / 1000
  let offset1 := s.offset - s.speed * dt
  let offset2 := if s.halfWidth ≤ ratAbs offset1 then offset1 + s.halfWidth else offset1
  { s with lastTime := now, offset := offset2,
           transform := some (Transform.translateX offset2) }

/-- The `mouseenter` handler on the track: `speed = 0`. -/
def onMouseEnter (s : CarouselState) : CarouselState :=
  { s with speed := 0 }

/-- The `mouseleave` handler on the track: `speed = 40`. -/
def onMouseLeave (s : CarouselState) : CarouselState :=
  { s with speed := 40 }

/-- Spec-side formula for claim C1, read literally: the new offset is
`offset - speed * (now - lastTime) / 1000`, and `halfWidth` is added
back when the absolute value strictly EXCEEDS `halfWidth`. -/
def c1OffsetStrict (offset speed lastTime halfWidth now : ℚ) : ℚ :=
  let o := offset - speed * (now - lastTime) / 1000
  if halfWidth < ratAbs o then o + halfWidth else o

/-- Spec-side formula for claim C1 as amended: the wrap-around happens
when the absolute value of the new offset reaches or exceeds
`halfWidth` (`>=`), matching the source's `Math.abs(offset) >= halfWidth`. -/
def c1OffsetWrap (offset speed lastTime halfWidth now : ℚ) : ℚ :=
  let o := offset - speed * (now - lastTime) / 1000
  if halfWidth ≤ ratAbs o then o + halfWidth else o

/-- Claim C1 (counterexample). With `offset = 0`, `speed = 40`,
`lastTime = 0`, `halfWidth = 100` and `now = 2500`, the new offset is
exactly `-100`, whose absolute value equals (does not strictly exceed)
`halfWidth`; the code wraps it to `0`, while the claim's strict
"exceeds" reading leaves `-100`.  So the written transform differs from
the claim's formula. -/
theorem c1_step_counterexample :
    (step ⟨40, 0, 0, 100, none⟩ 2500).transform ≠
      some (Transform.translateX (c1OffsetStrict 0 40 0 100 2500)) ∧
    (step ⟨40, 0, 0, 100, none⟩ 2500).offset ≠ c1OffsetStrict 0 40 0 100 2500 := by
  refine ⟨?_, ?_⟩ <;> norm_num [step, c1OffsetStrict, ratAbs]

/-- Claim C1 (amended): for every invocation of `step` with timestamp
`now`, the new offset equals the old offset minus
`speed * (now - lastTime) / 1000`; then, when the absolute value of the
new offset reaches or exceeds `halfWidth`, `halfWidth` is added back
exactly once; and the value written to the track's transform is
`translateX` of the resulting offset in pixels. -/
theorem c1_step_wrap (s : CarouselState) (now : ℚ) :
    (step s now).offset = c1OffsetWrap s.offset s.speed s.lastTime s.halfWidth now ∧
    (step s now).transform =
      some (Transform.translateX (c1OffsetWrap s.offset s.speed s.lastTime s.halfWidth now)) ∧
    (step s now).lastTime = now := by
  refine ⟨?_, ?_, rfl⟩ <;> simp [step, c1OffsetWrap, mul_div_assoc]

/-- A step taken while the speed is zero and the offset is strictly
inside the wrap window leaves the offset, speed and half-width
unchanged and writes the unchanged offset as the transform. -/
theorem step_zero_speed (s : CarouselState) (now : ℚ)
    (hs : s.speed = 0) (h : |s.offset| < s.halfWidth) :
    (step s now).offset = s.offset ∧ (step s now).speed = 0 ∧
    (step s now).halfWidth = s.halfWidth ∧
    (step s now).transform = some (Transform.translateX s.offset) := by
  simp [step, ratAbs_eq_abs, hs, not_le.mpr h]

/-- Folding any list of frame timestamps through `step` from a
zero-speed state strictly inside the wrap window never changes the
offset, speed or half-width. -/
theorem foldl_step_zero_speed (ts : List ℚ) (s : CarouselState)
    (hs : s.speed = 0) (h : |s.offset| < s.halfWidth) :
    (ts.foldl step s).offset = s.offset ∧ (ts.foldl step s).speed = 0 ∧
    (ts.foldl step s).halfWidth = s.halfWidth ∧
    (ts ≠ [] → (ts.foldl step s).transform = some (Transform.translateX s.offset)) := by
  induction ts generalizing s with
  | nil => exact ⟨rfl, hs, rfl, fun hc => absurd rfl hc⟩
  | cons t ts ih =>
    simp only [List.foldl_cons]
    obtain ⟨h1, h2, h3, h4⟩ := step_zero_speed s t hs h
    obtain ⟨i1, i2, i3, i4⟩ := ih (step s t) h2 (by rw [h1, h3]; exact h)
    refine ⟨by rw [i1, h1], i2, by rw [i3, h3], fun _ => ?_⟩
    cases ts with
    | nil => simpa using h4
    | cons u us => rw [i4 (by simp), h1]

/-- Claim C6 (counterexample).  From the reachable state with
`offset = -100 = -halfWidth`, hovering (speed set to `0`) does not
freeze the carousel: the very next `step` still fires the wrap branch
and moves the offset to `0`. -/
theorem c6_hover_counterexample :
    (step (onMouseEnter ⟨40, -100, 0, 100, none⟩) 1000).offset = 0 ∧
    (step (onMouseEnter ⟨40, -100, 0, 100, none⟩) 1000).offset ≠ -100 := by
  refine ⟨?_, ?_⟩ <;> norm_num [step, onMouseEnter, ratAbs]

/-- Claim C6 (amended): after `mouseenter` the speed is `0`, and —
provided the offset lies strictly inside the wrap window
(`|offset| < halfWidth`, which all but the boundary states satisfy) —
every subsequent step leaves the offset unchanged and writes the same
`translateX` transform; `mouseleave` restores the speed to `40`. -/
theorem c6_hover_amended (s : CarouselState) (ts : List ℚ)
    (h : |s.offset| < s.halfWidth) :
    (onMouseEnter s).speed = 0 ∧
    (ts.foldl step (onMouseEnter s)).offset = s.offset ∧
    (ts.foldl step (onMouseEnter s)).speed = 0 ∧
    (ts ≠ [] →
      (ts.foldl step (onMouseEnter s)).transform = some (Transform.translateX s.offset)) ∧
    (∀ s2 : CarouselState, (onMouseLeave s2).speed = 40) := by
  obtain ⟨h1, h2, _, h4⟩ := foldl_step_zero_speed ts (onMouseEnter s) rfl h
  exact ⟨rfl, h1, h2, h4, fun _ => rfl⟩

/-- Claim C6 witness at a concrete hover interval of three frames. -/
theorem c6_hover_amended_witness :
    (([100, 200, 300] : List ℚ).foldl step (onMouseEnter ⟨40, -50, 0, 100, none⟩)).offset
      = -50 :=
  (c6_hover_amended ⟨40, -50, 0, 100, none⟩ [100, 200, 300] (by norm_num)).2.1

/-- Claim C9: the step preserves the invariant `-halfWidth < offset ≤ 0`
whenever the half-width is positive, the elapsed time is nonnegative,
the speed is nonnegative, and the distance advanced this frame,
`speed * ((now - lastTime) / 1000)`, is less than `halfWidth`. -/
theorem c9_step_invariant (s : CarouselState) (now : ℚ)
    (h1 : -s.halfWidth < s.offset) (h2 : s.offset ≤ 0) (h3 : 0 < s.halfWidth)
    (h4 : 0 ≤ s.speed) (h5 : s.lastTime ≤ now)
    (h6 : s.speed * ((now - s.lastTime) / 1000) < s.halfWidth) :
    -s.halfWidth < (step s now).offset ∧ (step s now).offset ≤ 0 := by
  have hd : 0 ≤ s.speed * ((now - s.lastTime) / 1000) :=
    mul_nonneg h4 (div_nonneg (sub_nonneg.mpr h5) (by norm_num))
  simp only [step]
  split
  case isTrue habs =>
    have hx : s.offset - s.speed * ((now - s.lastTime) / 1000) ≤ 0 := by linarith
    rw [ratAbs_eq_abs, abs_of_nonpos hx] at habs
    constructor <;> linarith
  case isFalse habs =>
    rw [ratAbs_eq_abs, not_le, abs_lt] at habs
    constructor <;> linarith

/-- Claim C9 witness: a concrete in-window state one second after the
previous frame. -/
theorem c9_step_invariant_witness :
    -(100 : ℚ) < (step ⟨40, -50, 0, 100, none⟩ 1000).offset ∧
    (step ⟨40, -50, 0, 100, none⟩ 1000).offset ≤ 0 :=
  c9_step_invariant ⟨40, -50, 0, 100, none⟩ 1000 (by norm_num) (by norm_num)
    (by norm_num) (by norm_num) (by norm_num) (by norm_num)

/-- A DOM element as the script observes it: its document-space top
(`window.scrollY + getBoundingClientRect().top`, invariant under
scrolling), its bounding-rect width and height, whether its computed
style position is `fixed`, and its class list. -/
structure Elem where
  docTop : ℚ
  width : ℚ
  height : ℚ
  fixedPos : Bool
  classes : List String
  deriving DecidableEq

/-- Page state visible to the nav-link and toggle handlers: the scroll
position, viewport width, the optional `#sidebar` element, the mapping
from href fragments to the document-space top of the element
`document.querySelector(href)` returns (absent keys mean no match), and
the URL hash. -/
structure Page where
  scrollY : ℚ
  innerWidth : ℚ
  sidebar : Option Elem
  targets : List (String × ℚ)
  hash : String
  deriving DecidableEq

/-- main.js top-bar test:
`getComputedStyle(sidebar).position === 'fixed' &&
 sidebar.getBoundingClientRect().width >= window.innerWidth - 1`. -/
def IsTopBarMain (p : Page) (sb : Elem) : Prop :=
  sb.fixedPos = true ∧ p.innerWidth - 1 ≤ sb.width

instance (p : Page) (sb : Elem) : Decidable (IsTopBarMain p sb) := by
  unfold IsTopBarMain
  infer_instance

/-- Second version's top-bar test:
`window.matchMedia('(max-width: 640px)').matches`. -/
def IsTopBarPart (p : Page) : Prop :=
  p.innerWidth ≤ 640

instance (p : Page) : Decidable (IsTopBarPart p) := by
  unfold IsTopBarPart
  infer_instance

/-- The scroll offset computed by the main.js click handler:
`12` by default, `sidebar height + 8` when the sidebar is a fixed top
bar. -/
def offsetMain (p : Page) : ℚ :=
  match p.sidebar with
  | none => 12
  | some sb => if IsTopBarMain p sb then sb.height + 8 else 12

/-- `getSidebarAndOffset` of the second version: offset `12` by
default, `sidebar height + 8` when the mobile media query matches. -/
def offsetPart (p : Page) : ℚ :=
  match p.sidebar with
  | none => 12
  | some sb => if IsTopBarPart p then sb.height + 8 else 12

/-- `classList.toggle(cls)` on a DOM token list: remove the class when
present, append it when absent. -/
def classToggle (cls : String) (l : List String) : List String :=
  if l.contains cls then l.filter (fun c => !(c == cls)) else l ++ [cls]

/-- The body of both sidebar-toggle handlers:
`sidebar.classList.toggle('open')`. -/
def toggleOpen (e : Elem) : Elem :=
  { e with classes := classToggle "open" e.classes }

/-- `if (sidebar && sidebar.classList.contains('open'))
 sidebar.classList.remove('open')` at the end of both click handlers. -/
def closeSidebar : Option Elem → Option Elem
  | none => none
  | some e =>
      if e.classes.contains "open" then
        some { e with classes := e.classes.filter (fun c => !(c == "open")) }
      else some e

/-- The TypeError message a null `sidebar` produces in main.js's toggle
handler. -/
def sidebarNullError : String :=
  "TypeError: cannot read classList of null"

/-- main.js's sidebar-toggle click handler: it looks up `#sidebar` and
calls `sidebar.classList.toggle('open')` with no null check, so a
missing sidebar throws a TypeError. -/
def mainSidebarToggleClick : Option Elem → Except String (Option Elem)
  | none => Except.error sidebarNullError
  | some e => Except.ok (some (toggleOpen e))

/-- Second version's toggle handler, guarded by `if (!sidebar) return;`
(its focus side effect does not touch the modelled state). -/
def partSidebarToggleClick : Option Elem → Except String (Option Elem)
  | none => Except.ok none
  | some e => Except.ok (some (toggleOpen e))

/-- Whether a click listener gets attached to the toggle button: both
versions guard the binding with `if (sidebarToggle)`. -/
def sidebarToggleListenerAttached : Option Elem → Bool
  | none => false
  | some _ => true

/-- Browser effects a nav-link click handler emits, in order. -/
inductive Effect where
  | scrollTo (top : ℚ)
  | scrollIntoViewTop (docTop : ℚ)
  | timerAdjust (delayMs : ℚ) (dy : ℚ) (hash : String)
  | warn (href : String)
  deriving DecidableEq

/-- How the browser applies one effect: `scrollTo` jumps to the given
document position, `scrollIntoView` with `block: 'start'` aligns the
element top with the viewport top, the `setTimeout` callback runs
`scrollBy` and `history.replaceState`, and `console.warn` changes
nothing. -/
def applyEffect (p : Page) : Effect → Page
  | Effect.scrollTo t => { p with scrollY := t }
  | Effect.scrollIntoViewTop d => { p with scrollY := d }
  | Effect.timerAdjust _ dy h => { p with scrollY := p.scrollY + dy, hash := h }
  | Effect.warn _ => p

/-- The second version's guard `href.charAt(0) !== '#'` (with `!href`
folded in: an empty string has no first character). -/
def firstCharIsHash (href : String) : Bool :=
  match href.data with
  | [] => false
  | c :: _ => c == '#'

/-- main.js's nav-link click handler: find the target; if absent return;
otherwise compute `scrollTarget = window.scrollY + rect.top - offset`,
smooth-scroll there, and close the sidebar if it was open. -/
def mainNavClick (p : Page) (href : String) : Page × List Effect :=
  match p.targets.lookup href with
  | none => (p, [])
  | some docTop =>
      ({ p with sidebar := closeSidebar p.sidebar },
       [Effect.scrollTo (p.scrollY + (docTop - p.scrollY) - offsetMain p)])

/-- `onNavLinkClick` of the second version: only in-page anchors are
handled; a missing target logs a console warning; otherwise
`scrollIntoView`, then a 320 ms `setTimeout` that scrolls up by the
offset and rewrites the hash; finally close the sidebar if open. -/
def partNavClick (p : Page) (href : String) : Page × List Effect :=
  if firstCharIsHash href then
    match p.targets.lookup href with
    | none => (p, [Effect.warn href])
    | some docTop =>
        ({ p with sidebar := closeSidebar p.sidebar },
         [Effect.scrollIntoViewTop docTop,
          Effect.timerAdjust 320 (-offsetPart p) href])
  else (p, [])

/-- Final page once the browser has applied all emitted effects
(including the timer callback). -/
def runHandler (r : Page × List Effect) : Page :=
  r.2.foldl applyEffect r.1

def runMain (p : Page) (href : String) : Page :=
  runHandler (mainNavClick p href)

def runPart (p : Page) (href : String) : Page :=
  runHandler (partNavClick p href)

/-- Whether an effect list schedules a 320 ms timer. -/
def hasTimer (effs : List Effect) : Bool :=
  effs.any fun e =>
    match e with
    | Effect.timerAdjust d _ _ => decide (d = 320)
    | _ => false

/-- What the carousel setup block produces: the `src` of the images
appended to the track (in order), and whether the animation frame, the
hover listeners and the resize listener were installed. -/
structure CarouselInit where
  appended : List String
  scheduled : Bool
  hoverListeners : Bool
  resizeListener : Bool
  deriving DecidableEq

/-- The result of skipping the carousel setup entirely. -/
def skippedCarousel : CarouselInit :=
  { appended := [], scheduled := false, hoverListeners := false,
    resizeListener := false }

/-- The carousel setup block: `images = window.CAROUSEL_IMAGES || []`;
`if (track && images.length)` duplicate the list, append one item per
entry, schedule the animation and install the hover and resize
listeners; otherwise do nothing. -/
def setupCarousel (carouselImages : Option (List String)) (trackPresent : Bool) :
    CarouselInit :=
  let images := carouselImages.getD []
  if trackPresent && !images.isEmpty then
    { appended := images ++ images, scheduled := true,
      hoverListeners := true, resizeListener := true }
  else skippedCarousel

/-- Claim C10: activating the sidebar toggle is an involution on the
sidebar's `open`-class membership — both versions' handlers reduce to
`classList.toggle('open')`, and two toggles restore the original
membership for every starting class list. -/
theorem c10_toggle_involution (e : Elem) :
    mainSidebarToggleClick (some e) = Except.ok (some (toggleOpen e)) ∧
    partSidebarToggleClick (some e) = Except.ok (some (toggleOpen e)) ∧
    (("open" ∈ (toggleOpen (toggleOpen e)).classes) ↔ ("open" ∈ e.classes)) := by
  refine ⟨rfl, rfl, ?_⟩
  by_cases h : "open" ∈ e.classes <;>
    simp [toggleOpen, classToggle, h, List.mem_filter]

/-- Claim C3 (counterexample): main.js's toggle handler dereferences the
sidebar without a null check, so with the toggle button present and the
sidebar container absent a click throws a TypeError instead of silently
skipping. -/
theorem c3_missing_element_counterexample :
    mainSidebarToggleClick none = Except.error sidebarNullError :=
  rfl

/-- Claim C3 (amended): a missing nav-link target, toggle button or
carousel track is skipped silently in both versions (the second version
only logs a console warning for a missing target), and the second
version's toggle handler also skips a missing sidebar — but main.js's
toggle handler throws a TypeError when the sidebar container is
absent. -/
theorem c3_missing_elements (p : Page) (href : String)
    (hm : p.targets.lookup href = none) :
    mainNavClick p href = (p, []) ∧
    partNavClick p href = (p, if firstCharIsHash href then [Effect.warn href] else []) ∧
    partSidebarToggleClick none = Except.ok none ∧
    sidebarToggleListenerAttached none = false ∧
    (∀ imgs, setupCarousel imgs false = skippedCarousel) ∧
    mainSidebarToggleClick none = Except.error sidebarNullError := by
  refine ⟨?_, ?_, rfl, rfl, fun imgs => rfl, rfl⟩
  · simp [mainNavClick, hm]
  · by_cases hf : firstCharIsHash href <;> simp [partNavClick, hm, hf]

/-- Claim C3 witness at a concrete page with no targets. -/
theorem c3_missing_elements_witness :
    mainNavClick ⟨0, 800, none, [], ""⟩ "#contact" = (⟨0, 800, none, [], ""⟩, []) :=
  (c3_missing_elements ⟨0, 800, none, [], ""⟩ "#contact" rfl).1

/-- Claim C7: with `CAROUSEL_IMAGES` undefined, or defined as an empty
list, or with the track element absent, the whole carousel setup is
skipped: nothing is appended, no frame is scheduled, no hover or resize
listener is added. -/
theorem c7_carousel_skip :
    (∀ t, setupCarousel none t = skippedCarousel) ∧
    (∀ t, setupCarousel (some []) t = skippedCarousel) ∧
    (∀ imgs, setupCarousel imgs false = skippedCarousel) := by
  refine ⟨fun t => ?_, fun t => ?_, fun imgs => rfl⟩ <;> cases t <;> rfl

/-- Claim C2: for a click whose href resolves to a target, main.js
computes the scroll destination `window.scrollY + rect.top - offset`,
with offset `12` by default and `sidebar height + 8` when the sidebar
is a fixed top bar; after the smooth scroll the target's document top
sits exactly that offset below the viewport top. -/
theorem c2_nav_scroll_destination (p : Page) (href : String) (docTop : ℚ)
    (h : p.targets.lookup href = some docTop) :
    (mainNavClick p href).2 =
      [Effect.scrollTo (p.scrollY + (docTop - p.scrollY) - offsetMain p)] ∧
    (runMain p href).scrollY = docTop - offsetMain p ∧
    docTop - (runMain p href).scrollY = offsetMain p ∧
    (p.sidebar = none → offsetMain p = 12) ∧
    (∀ sb, p.sidebar = some sb →
      offsetMain p = if IsTopBarMain p sb then sb.height + 8 else 12) := by
  refine ⟨?_, ?_, ?_, ?_, ?_⟩
  · simp [mainNavClick, h]
  · simp only [runMain, runHandler, mainNavClick, h, List.foldl_cons, List.foldl_nil,
      applyEffect]
    ring
  · simp only [runMain, runHandler, mainNavClick, h, List.foldl_cons, List.foldl_nil,
      applyEffect]
    ring
  · intro hs
    simp [offsetMain, hs]
  · intro sb hs
    simp [offsetMain, hs]

/-- Concrete page for the claim C2 witness. -/
def pgC2 : Page :=
  ⟨100, 1200, some ⟨0, 200, 600, false, ["open"]⟩, [("#projects", 800)], ""⟩

/-- Claim C2 witness: on a desktop page the click scrolls so that the
target top lands `offset` below the viewport top. -/
theorem c2_nav_scroll_destination_witness :
    (runMain pgC2 "#projects").scrollY = 800 - offsetMain pgC2 :=
  (c2_nav_scroll_destination pgC2 "#projects" 800 rfl).2.1

/-- Concrete page for the claim C4 counterexample. -/
def pgC4 : Page := ⟨0, 800, none, [("#x", 300)], ""⟩

/-- Claim C4 (counterexample): main.js handles this click (the target
exists) yet emits no timer at all — the offset correction happens
synchronously inside `scrollTo`, so the claim's "in every version of
the script" fails. -/
theorem c4_timer_counterexample :
    (pgC4.targets.lookup "#x").isSome = true ∧
    hasTimer (mainNavClick pgC4 "#x").2 = false :=
  ⟨rfl, rfl⟩

/-- Claim C4 (amended): only the second version performs the fixed
offset adjustment through a 320 ms `setTimeout` on every handled click;
main.js applies the offset synchronously in its single `scrollTo` and
never schedules a timer. -/
theorem c4_timer_amended (p : Page) (href : String) (docTop : ℚ)
    (hf : firstCharIsHash href = true)
    (hl : p.targets.lookup href = some docTop) :
    (partNavClick p href).2 =
      [Effect.scrollIntoViewTop docTop,
       Effect.timerAdjust 320 (-offsetPart p) href] ∧
    hasTimer (partNavClick p href).2 = true ∧
    (∀ q a, hasTimer (mainNavClick q a).2 = false) := by
  refine ⟨?_, ?_, ?_⟩
  · simp [partNavClick, hf, hl]
  · simp [partNavClick, hf, hl, hasTimer]
  · intro q a
    unfold mainNavClick
    cases q.targets.lookup a <;> simp [hasTimer]

/-- Concrete page for the claim C4 witness. -/
def pgC4w : Page := ⟨0, 800, none, [("#a", 100)], ""⟩

/-- Claim C4 witness: the second version schedules the 320 ms timer on
a concrete handled click. -/
theorem c4_timer_amended_witness :
    hasTimer (partNavClick pgC4w "#a").2 = true :=
  (c4_timer_amended pgC4w "#a" 100 rfl rfl).2.1

/-- Concrete page for the claim C5 counterexample: a fixed sidebar
spanning a `800`-pixel viewport.  main.js classifies it as a top bar
(offset `64 + 8 = 72`), the second version's `max-width: 640px` media
query does not (offset `12`). -/
def pgC5 : Page := ⟨0, 800, some ⟨0, 800, 64, true, []⟩, [("#about", 500)], ""⟩

/-- Claim C5 (counterexample): on the same page state and the same link
the two versions settle at different final scroll positions
(`428` versus `488`), so they are not behaviorally equivalent. -/
theorem c5_equiv_counterexample :
    (runMain pgC5 "#about").scrollY ≠ (runPart pgC5 "#about").scrollY := by
  norm_num [runMain, runPart, runHandler, mainNavClick, partNavClick, pgC5,
    firstCharIsHash, List.lookup, offsetMain, offsetPart, IsTopBarMain,
    IsTopBarPart, closeSidebar, applyEffect]

/-- Claim C5 (amended): the two click handlers agree on the final
scroll position and sidebar state whenever the href is an in-page
anchor (starts with `#`, the only kind the second version handles) and
the two versions' top-bar criteria yield the same offset; the second
version additionally rewrites the URL hash. -/
theorem c5_equiv_amended (p : Page) (href : String)
    (hf : firstCharIsHash href = true)
    (hoff : offsetMain p = offsetPart p) :
    (runMain p href).scrollY = (runPart p href).scrollY ∧
    (runMain p href).sidebar = (runPart p href).sidebar := by
  cases hl : p.targets.lookup href with
  | none =>
      simp [runMain, runPart, runHandler, mainNavClick, partNavClick, hf, hl,
        applyEffect]
  | some docTop =>
      refine ⟨?_, ?_⟩ <;>
        simp only [runMain, runPart, runHandler, mainNavClick, partNavClick, hf,
          if_true, hl, List.foldl_cons, List.foldl_nil, applyEffect]
      rw [hoff]
      ring

/-- Concrete page for the claim C5 witness. -/
def pgC5w : Page := ⟨0, 900, none, [("#b", 250)], ""⟩

/-- Claim C5 witness: with no sidebar both versions compute offset `12`
and land at the same final scroll position. -/
theorem c5_equiv_amended_witness :
    (runMain pgC5w "#b").scrollY = (runPart pgC5w "#b").scrollY :=
  (c5_equiv_amended pgC5w "#b" rfl rfl).1

/-- Indexing a self-appended list: element `i` of `l ++ l` is element
`i mod length` of `l`, for `i` below twice the length. -/
theorem getD_append_self {α : Type} (l : List α) (d : α) (i : ℕ)
    (hi : i < 2 * l.length) :
    (l ++ l).getD i d = l.getD (i % l.length) d := by
  rw [List.getD_eq_getElem?_getD, List.getD_eq_getElem?_getD, List.getElem?_append]
  rcases lt_or_ge i l.length with h | h
  · rw [if_pos h, Nat.mod_eq_of_lt h]
  · have hmod : i % l.length = i - l.length := by
      rw [Nat.mod_eq_sub_mod h, Nat.mod_eq_of_lt (by omega)]
    rw [if_neg (not_lt.mpr h), hmod]

/-- Claim C8 (counterexample): with the non-empty list `["a", "a"]` the
track receives four items with src `"a"`, so the image URL `"a"` from
the list does not appear exactly twice. -/
theorem c8_duplication_counterexample :
    (setupCarousel (some ["a", "a"]) true).appended.count "a" = 4 ∧
    ("a" ∈ (["a", "a"] : List String)) ∧
    (setupCarousel (some ["a", "a"]) true).appended.count "a" ≠ 2 := by
  refine ⟨?_, by simp, ?_⟩ <;> simp [setupCarousel]

/-- Claim C8 (amended): setup appends exactly `2 n` items in order, the
`i`-th carrying `images[i mod n]`; every URL appears twice per
occurrence in the list (once per half per occurrence), hence exactly
twice when the list has no duplicates. -/
theorem c8_duplication_amended (images : List String) (h : images ≠ []) :
    (setupCarousel (some images) true).appended.length = 2 * images.length ∧
    (∀ i, i < 2 * images.length →
      (setupCarousel (some images) true).appended.getD i "" =
        images.getD (i % images.length) "") ∧
    (∀ u, u ∈ images →
      (setupCarousel (some images) true).appended.count u = 2 * images.count u) ∧
    (images.Nodup → ∀ u, u ∈ images →
      (setupCarousel (some images) true).appended.count u = 2) := by
  obtain ⟨a, as, rfl⟩ : ∃ a as, images = a :: as := by
    cases images with
    | nil => exact absurd rfl h
    | cons a as => exact ⟨a, as, rfl⟩
  have happ : (setupCarousel (some (a :: as)) true).appended = (a :: as) ++ (a :: as) :=
    rfl
  refine ⟨?_, ?_, ?_, ?_⟩
  · rw [happ, List.length_append, two_mul]
  · intro i hi
    rw [happ, getD_append_self _ _ _ hi]
  · intro u hu
    rw [happ, List.count_append, two_mul]
  · intro hnd u hu
    rw [happ, List.count_append, List.count_eq_one_of_mem hnd hu]

/-- Claim C8 witness on the two-image list `["a", "b"]`. -/
theorem c8_duplication_amended_witness :
    (setupCarousel (some ["a", "b"]) true).appended.length =
      2 * (["a", "b"] : List String).length :=
  (c8_duplication_amended ["a", "b"] (List.cons_ne_nil "a" ["b"])).1
